import Mathlib

/-!
Verification of the blogging-agent pipeline core: a shallow embedding of the
routing functions, the critic-driven rewrite loop, the runner status logic,
the fact-check diff, and the publish node, together with theorems about the
spec's claims on them.

The embedded code lives in `src/core/graph.py`, `src/core/runner.py`,
`src/agents/writer.py`, `src/agents/critic.py`, `src/agents/fact_checker.py`
and `src/core/publisher.py`. The shared data model (`core/state.py`) is not
part of the source tree; its types are modelled from the spec, §3.
-/

namespace BloggingAgent

/-- Modelled from the spec: the critic's PASS/FAIL verdict enum (`Verdict` in
the missing `core/state.py`; spec §3 "CriticFeedback — verdict (enum PASS|FAIL)"). -/
inductive Verdict where
  | PASS
  | FAIL
deriving DecidableEq, Repr

/-- Modelled from the spec: the human decision enum at the HITL gates
(`HumanDecision` in the missing `core/state.py`; spec §6 gives
approve|edit|reject at the outline gate and approve|reject at the publish gate). -/
inductive HumanDecision where
  | APPROVE
  | EDIT
  | REJECT
deriving DecidableEq, Repr

/-- Modelled from the spec: fact-check issue severity (spec §3
"severity: HIGH|MEDIUM|LOW"). -/
inductive Severity where
  | HIGH
  | MEDIUM
  | LOW
deriving DecidableEq, Repr

/-- Modelled from the spec: `CriticFeedback` from the missing `core/state.py`
(spec §3): verdict, score, strengths, weaknesses, specific_feedback,
rewrite_instructions. -/
structure CriticFeedback where
  verdict : Verdict
  score : Int
  strengths : List String := []
  weaknesses : List String := []
  specific_feedback : String := ""
  rewrite_instructions : String := ""
deriving DecidableEq, Repr

/-- Modelled from the spec: `FactCheckIssue` from the missing `core/state.py`
(spec §3: {claim, issue, severity, suggestion}). -/
structure FactCheckIssue where
  claim : String
  issue : String
  severity : Severity
  suggestion : String := ""
deriving DecidableEq, Repr

/-- Modelled from the spec: `FactCheckResult` from the missing `core/state.py`
(spec §3). The float field `overall_accuracy` is omitted: no verified claim
reads it. -/
structure FactCheckResult where
  claims_checked : Nat
  issues_found : List FactCheckIssue
  suggestions : List String := []
deriving DecidableEq, Repr

/-- Modelled from the spec: `FactCheckDiff` from the missing `core/state.py`
(spec §3: resolved / new / remaining claim-text lists). -/
structure FactCheckDiff where
  resolved : List String
  new : List String
  remaining : List String
deriving DecidableEq, Repr

/-- Modelled from the spec: `BlogConfig` from the missing `core/state.py`.
Field names and defaults follow the construction sites in `src/web/app.py`
(form defaults, in particular `output_language` defaulting to "both") and
`src/main.py`. Only `output_language` is read by the verified routing code. -/
structure BlogConfig where
  word_count : Nat := 1500
  tone : String := "professional"
  writing_style : String := "analysis"
  target_audience : String := ""
  output_language : String := "both"
  primary_keyword : String := ""
  categories : List String := []
  include_code_examples : Bool := false
  include_tldr : Bool := false
  custom_instructions : String := ""
deriving DecidableEq, Repr

/-- Modelled from the spec: `PublishTarget` from the missing `core/state.py`
(spec §6: targets `[{language, platform, publish: bool}]`; construction in
`src/web/app.py`). -/
structure PublishTarget where
  language : String
  platform : String
  publish : Bool
deriving DecidableEq, Repr

/-- Modelled from the spec: `SEOMetadata` from the missing `core/state.py`
(fields as constructed in `src/tests/conftest.py` and read in
`src/core/graph.py` publish_node). -/
structure SEOMetadata where
  optimized_title : String
  meta_description : String := ""
  primary_keyword : String := ""
  secondary_keywords : List String := []
  suggested_slug : String := ""
deriving DecidableEq, Repr

/-- Modelled from the spec: one outline section (conftest `OutlineSection`).
The python field named `structure` is a Lean keyword, rendered `structure_`. -/
structure OutlineSection where
  heading : String
  key_points : List String
deriving DecidableEq, Repr

/-- Modelled from the spec: `Outline` from the missing `core/state.py`
(fields as constructed in `src/tests/conftest.py`). -/
structure Outline where
  topic : String
  angle : String
  target_audience : String
  key_points : List String
  structure_ : List OutlineSection
  estimated_word_count : Nat
deriving DecidableEq, Repr

/-- Modelled from the spec: `PipelineState` (spec §3) — a mapping from named
fields to typed values where any field may be absent. A python
`state.get(k)` returning `None` for a missing key is modelled as an
`Option` field holding `none`; `state.get(k, d)` is `Option.getD`. -/
structure PipelineState where
  critic_feedback : Option CriticFeedback := none
  rewrite_count : Option Nat := none
  blog_config : Option BlogConfig := none
  outline_decision : Option HumanDecision := none
  publish_decision : Option HumanDecision := none
  current_step : Option String := none
  outline : Option Outline := none
  research_summary : Option String := none
  outline_human_notes : Option String := none
  draft_ko : Option String := none
  draft_en : Option String := none
  edited_draft_ko : Option String := none
  edited_draft_en : Option String := none
  final_post_ko : Option String := none
  final_post_en : Option String := none
  seo_metadata_ko : Option SEOMetadata := none
  seo_metadata_en : Option SEOMetadata := none
  fact_check : Option FactCheckResult := none
  fact_check_diff : Option FactCheckDiff := none
  publish_targets : Option (List PublishTarget) := none
deriving DecidableEq, Repr

/-- `MAX_REWRITE_ATTEMPTS` from `src/config/settings.py`: the env default 3. -/
def MAX_REWRITE_ATTEMPTS : Nat := 3

/-- LangGraph's terminal sentinel, the value of `langgraph.graph.END`. -/
def END : String := "__end__"

/-- Embeds `route_after_outline_review` (`src/core/graph.py` lines 160-165):
`state.get("outline_decision", HumanDecision.APPROVE)`; REJECT routes to END,
anything else to "writer". -/
def route_after_outline_review (state : PipelineState) : String :=
  let decision := state.outline_decision.getD HumanDecision.APPROVE
  if decision = HumanDecision.REJECT then END else "writer"

/-- Embeds the condition `feedback and feedback.verdict == Verdict.FAIL` of
`route_after_critic` (`src/core/graph.py` line 173); python short-circuits on
a `None` feedback, so a missing field simply yields false. -/
def critic_verdict_failed (state : PipelineState) : Bool :=
  match state.critic_feedback with
  | some feedback => feedback.verdict = Verdict.FAIL
  | none => false

/-- Embeds `route_after_critic` (`src/core/graph.py` lines 168-185):
FAIL verdict with `rewrite_count` below `MAX_REWRITE_ATTEMPTS` loops to
"writer"; otherwise the forward branch reads `blog_config` (falling back to a
default `BlogConfig()` via python `or`) and returns "editor" under
`output_language == "ko-only"`, else "translator". -/
def route_after_critic (state : PipelineState) : String :=
  let rewrite_count := state.rewrite_count.getD 0
  if critic_verdict_failed state ∧ rewrite_count < MAX_REWRITE_ATTEMPTS then
    "writer"
  else
    let config := state.blog_config.getD {}
    if config.output_language = "ko-only" then "editor"
    else "translator"

/-- The forward branch of `route_after_critic` (`src/core/graph.py` lines
180-185), taken whenever the function does not loop to "writer". -/
def forward_target (state : PipelineState) : String :=
  let config := state.blog_config.getD {}
  if config.output_language = "ko-only" then "editor"
  else "translator"

/-- Embeds `route_after_publish_review` (`src/core/graph.py` lines 188-193):
`state.get("publish_decision", HumanDecision.APPROVE)`; REJECT routes to END,
anything else to "publish". -/
def route_after_publish_review (state : PipelineState) : String :=
  let decision := state.publish_decision.getD HumanDecision.APPROVE
  if decision = HumanDecision.REJECT then END else "publish"

/-- Embeds the state effect of `WriterAgent.run` (`src/agents/writer.py` lines
24-77): the returned update `{draft_ko, rewrite_count, current_step}` merged
into the state (LangGraph merge: a returned value overwrites the field).
`is_rewrite = critic_feedback is not None`; the update sets `rewrite_count`
to `rewrite_count + 1` on a rewrite and to 0 on the initial write. The draft
text itself is the opaque LLM output, passed in as `llm_draft`. -/
def writer_run_update (llm_draft : String) (state : PipelineState) : PipelineState :=
  let is_rewrite := state.critic_feedback.isSome
  { state with
      draft_ko := some llm_draft
      rewrite_count := some (if is_rewrite then state.rewrite_count.getD 0 + 1 else 0)
      current_step := some "writer" }

/-- Embeds `FactCheckerAgent._compute_diff` (`src/agents/fact_checker.py`
lines 64-76): claim-text sets of the previous and current issues, with
`resolved` the sorted set difference previous minus current, `new` the sorted
difference current minus previous, `remaining` the sorted intersection. -/
def compute_diff (previous current : FactCheckResult) : FactCheckDiff :=
  let prev_claims : Finset String := (previous.issues_found.map (fun i => i.claim)).toFinset
  let curr_claims : Finset String := (current.issues_found.map (fun i => i.claim)).toFinset
  { resolved := (prev_claims \ curr_claims).sort (· ≤ ·)
    new := (curr_claims \ prev_claims).sort (· ≤ ·)
    remaining := (prev_claims ∩ curr_claims).sort (· ≤ ·) }

/-- Embeds the state effect of `FactCheckerAgent.run` (`src/agents/fact_checker.py`
lines 24-62): sets `fact_check` and `current_step`, and additionally
`fact_check_diff` when a previous `fact_check` was present. The new
`FactCheckResult` is the opaque LLM output, passed in as `fact_check`. -/
def fact_checker_run_update (fact_check : FactCheckResult) (state : PipelineState) :
    PipelineState :=
  match state.fact_check with
  | some previous =>
      { state with
          fact_check := some fact_check
          fact_check_diff := some (compute_diff previous fact_check)
          current_step := some "fact_checker" }
  | none =>
      { state with
          fact_check := some fact_check
          current_step := some "fact_checker" }

/-- Embeds the state effect of `CriticAgent.run` (`src/agents/critic.py`): the
returned update `{critic_feedback, current_step}` merged into the state; the
feedback is the opaque LLM output, passed in as `feedback`. -/
def critic_run_update (feedback : CriticFeedback) (state : PipelineState) : PipelineState :=
  { state with
      critic_feedback := some feedback
      current_step := some "critic" }

/-- One pass of the writer → fact_checker → critic segment of the graph: the
opaque LLM outputs produced in that pass (the writer's draft, the fact
checker's result, the critic's feedback, which carries the verdict). -/
structure CriticRound where
  draft : String
  fact : FactCheckResult
  feedback : CriticFeedback
deriving DecidableEq, Repr

/-- The rewrite loop of the graph (`src/core/graph.py` edges writer →
fact_checker → critic plus the conditional edge `route_after_critic`): run
writer, fact_checker and critic in sequence, then loop back to writer exactly
when `route_after_critic` returns "writer". Returns the resulting state and
the number of writer invocations performed. The trace of opaque agent
outputs is supplied per round; the loop stops early if the trace runs out. -/
def rewrite_loop : List CriticRound → PipelineState → PipelineState × Nat
  | [], state => (state, 0)
  | round :: rest, state =>
      let s1 := writer_run_update round.draft state
      let s2 := fact_checker_run_update round.fact s1
      let s3 := critic_run_update round.feedback s2
      if route_after_critic s3 = "writer" then
        let continued := rewrite_loop rest s3
        (continued.1, continued.2 + 1)
      else
        (s3, 1)

/-- The state reaching the writer for the first time: `start()` seeds
`rewrite_count=0` and `current_step="started"` (`src/core/runner.py` lines
38-43); research_planner and outline_review write neither `rewrite_count`
nor `critic_feedback`. -/
def after_outline_state : PipelineState :=
  { rewrite_count := some 0, current_step := some "started" }

/-- The conftest `sample_critic_pass` fixture (`src/tests/conftest.py`). -/
def sample_critic_pass : CriticFeedback :=
  { verdict := Verdict.PASS
    score := 8
    strengths := ["Clear structure", "Good examples"]
    weaknesses := ["Minor transition issues"]
    specific_feedback := "Well written overall."
    rewrite_instructions := "" }

/-- The conftest `sample_critic_fail` fixture (`src/tests/conftest.py`). -/
def sample_critic_fail : CriticFeedback :=
  { verdict := Verdict.FAIL
    score := 5
    strengths := ["Good topic choice"]
    weaknesses := ["Shallow analysis", "Missing examples"]
    specific_feedback := "Needs significant improvement."
    rewrite_instructions := "Add concrete examples and deepen the analysis." }

/-- A round whose critic always fails the draft, with an issue-free fact
check. -/
def failing_round : CriticRound :=
  { draft := "draft"
    fact := { claims_checked := 0, issues_found := [] }
    feedback := sample_critic_fail }

/-- A LangGraph state snapshot as consumed by the runner: the checkpointed
state values plus the tuple of nodes the graph is paused before
(`snapshot.values`, `snapshot.next`). -/
structure StateSnapshot where
  values : PipelineState := {}
  next : List String := []
deriving DecidableEq, Repr

/-- The checkpoint store keyed by run id (thread_id), as persisted by the
SqliteSaver: at most one snapshot per run. -/
def CheckpointStore : Type := List (String × StateSnapshot)

/-- Embeds `graph.get_state(config)` as used by the runner: LangGraph looks
the thread up in the checkpointer and, for a thread with no checkpoint,
returns an empty snapshot (no values, no pending nodes) rather than raising. -/
def graph_get_state (store : CheckpointStore) (thread_id : String) : StateSnapshot :=
  match List.lookup thread_id store with
  | some snapshot => snapshot
  | none => {}

/-- Python truthiness of an optional string, as in `bool(state.get("draft_ko"))`
(`src/core/runner.py` lines 101-104): `None` and the empty string are falsy. -/
def truthy_text : Option String → Bool
  | some s => !s.isEmpty
  | none => false

/-- The status record built by `PipelineRunner.get_status`
(`src/core/runner.py` lines 93-110). -/
structure PipelineStatus where
  thread_id : String
  current_step : String
  is_interrupted : Bool
  is_stuck : Bool
  next_node : Option String
  rewrite_count : Nat
  has_outline : Bool
  has_draft_ko : Bool
  has_draft_en : Bool
  has_final_ko : Bool
  has_final_en : Bool
  critic_score : Option Int
deriving DecidableEq, Repr

/-- `PipelineRunner._HITL_NODES` (`src/core/runner.py` line 73). -/
def HITL_NODES : List String := ["outline_review", "publish_review"]

/-- Embeds `PipelineRunner.get_status` (`src/core/runner.py` lines 75-110):
`next_node` is the first pending node, `is_interrupted` holds exactly when it
is a HITL node, `is_stuck` when pending nodes exist but the first is not a
HITL node; the remaining fields are read from the snapshot values with the
source's defaults and truthiness. -/
def PipelineRunner.get_status (store : CheckpointStore) (thread_id : String) :
    PipelineStatus :=
  let snapshot := graph_get_state store thread_id
  let state := snapshot.values
  let next_nodes := snapshot.next
  let next_node := next_nodes.head?
  let is_hitl_pause : Bool :=
    match next_node with
    | some node => HITL_NODES.contains node
    | none => false
  let is_stuck := !next_nodes.isEmpty && !is_hitl_pause
  { thread_id := thread_id
    current_step := state.current_step.getD "unknown"
    is_interrupted := is_hitl_pause
    is_stuck := is_stuck
    next_node := next_node
    rewrite_count := state.rewrite_count.getD 0
    has_outline := state.outline.isSome
    has_draft_ko := truthy_text state.draft_ko
    has_draft_en := truthy_text state.draft_en
    has_final_ko := truthy_text state.final_post_ko
    has_final_en := truthy_text state.final_post_en
    critic_score := state.critic_feedback.map (fun f => f.score) }

/-- Embeds `PipelineRunner.get_state` (`src/core/runner.py` lines 123-127):
returns `snapshot.values` for the thread, whatever the snapshot is. -/
def PipelineRunner.get_state (store : CheckpointStore) (thread_id : String) :
    PipelineState :=
  (graph_get_state store thread_id).values

/-- Embeds `research_planner_node` (`src/core/graph.py` lines 43-45): the node
calls the agent on the state inside no handler, so the agent's outcome —
success or exception — is the node's outcome. The agent body is opaque;
exceptions are modelled by `Except`. -/
def research_planner_node {ε α : Type} (agent_run : PipelineState → Except ε α)
    (state : PipelineState) : Except ε α :=
  agent_run state

/-- Embeds `writer_node` (`src/core/graph.py` lines 63-65), as
`research_planner_node`. -/
def writer_node {ε α : Type} (agent_run : PipelineState → Except ε α)
    (state : PipelineState) : Except ε α :=
  agent_run state

/-- Embeds `fact_checker_node` (`src/core/graph.py` lines 68-70). -/
def fact_checker_node {ε α : Type} (agent_run : PipelineState → Except ε α)
    (state : PipelineState) : Except ε α :=
  agent_run state

/-- Embeds `critic_node` (`src/core/graph.py` lines 73-75). -/
def critic_node {ε α : Type} (agent_run : PipelineState → Except ε α)
    (state : PipelineState) : Except ε α :=
  agent_run state

/-- Embeds `translator_node` (`src/core/graph.py` lines 78-80). -/
def translator_node {ε α : Type} (agent_run : PipelineState → Except ε α)
    (state : PipelineState) : Except ε α :=
  agent_run state

/-- Embeds `editor_node` (`src/core/graph.py` lines 83-85). -/
def editor_node {ε α : Type} (agent_run : PipelineState → Except ε α)
    (state : PipelineState) : Except ε α :=
  agent_run state

/-- Embeds `seo_optimizer_node` (`src/core/graph.py` lines 88-90). -/
def seo_optimizer_node {ε α : Type} (agent_run : PipelineState → Except ε α)
    (state : PipelineState) : Except ε α :=
  agent_run state

/-- Exceptions arising in `publish_node`: `core.publisher.PublishError`
(caught by the node's handler) versus any other exception (not caught). -/
inductive PubExc where
  | publishError (msg : String)
  | otherExc (msg : String)
deriving DecidableEq, Repr

/-- The arguments of one `publisher.publish_post` call
(`src/core/graph.py` lines 133-136). -/
structure PublishCall where
  title : String
  slug : String
  body : String
  language : String
  tags : List String
deriving DecidableEq, Repr

/-- `state.get(f"seo_metadata_{lang}")` (`src/core/graph.py` line 120):
absent for a language other than ko/en. -/
def seo_metadata_for (state : PipelineState) (lang : String) : Option SEOMetadata :=
  if lang = "ko" then state.seo_metadata_ko
  else if lang = "en" then state.seo_metadata_en
  else none

/-- `state.get(f"final_post_{lang}")` (`src/core/graph.py` line 121). -/
def final_post_for (state : PipelineState) (lang : String) : Option String :=
  if lang = "ko" then state.final_post_ko
  else if lang = "en" then state.final_post_en
  else none

/-- `state.get(f"edited_draft_{lang}", "")` (`src/core/graph.py` line 121). -/
def edited_draft_for (state : PipelineState) (lang : String) : Option String :=
  if lang = "ko" then state.edited_draft_ko
  else if lang = "en" then state.edited_draft_en
  else none

/-- Python `x or y` on an optional string `x`: `None` and the empty string
fall through to `y`. -/
def python_or_text (x : Option String) (y : String) : String :=
  match x with
  | some s => if s.isEmpty then y else s
  | none => y

/-- The tag list built in `publish_node` (`src/core/graph.py` lines 127-131):
the primary keyword when truthy, then all secondary keywords, when SEO
metadata is present. -/
def tags_for (seo : Option SEOMetadata) : List String :=
  match seo with
  | some m =>
      (if m.primary_keyword.isEmpty then [] else [m.primary_keyword]) ++ m.secondary_keywords
  | none => []

/-- The `for target in jekyll_targets` loop of `publish_node`
(`src/core/graph.py` lines 119-139): threads the accumulated
`blog_urls` entries (insertion order) and the python `title` variable, and
stops at the first exception from `publish_post`, returning it alongside the
urls accumulated before it. A target whose body is empty is skipped. -/
def publish_posts_loop (publish_post : PublishCall → Except PubExc String)
    (state : PipelineState) :
    List PublishTarget → List (String × String) → String →
      List (String × String) × String × Option PubExc
  | [], urls, title => (urls, title, none)
  | target :: rest, urls, title =>
      let lang := target.language
      let seo := seo_metadata_for state lang
      let body :=
        python_or_text (final_post_for state lang) ((edited_draft_for state lang).getD "")
      if body.isEmpty then
        publish_posts_loop publish_post state rest urls title
      else
        let title' := match seo with | some m => m.optimized_title | none => ""
        let slug := match seo with | some m => m.suggested_slug | none => "untitled"
        match publish_post
            { title := title', slug := slug, body := body, language := lang,
              tags := tags_for seo } with
        | Except.ok url => publish_posts_loop publish_post state rest (urls ++ [(lang, url)]) title'
        | Except.error e => (urls, title', some e)

/-- The whole `try` block of `publish_node` (`src/core/graph.py` lines
115-145): nothing happens without jekyll targets; otherwise the posts loop
runs and, if every publish succeeded and produced at least one url, a single
`commit_and_push` follows with title `Add post: {title or "New blog post"}`.
Returns the accumulated urls and the first exception, if any. -/
def publish_jekyll_phase (publish_post : PublishCall → Except PubExc String)
    (commit_and_push : String → Except PubExc Unit) (state : PipelineState) :
    List (String × String) × Option PubExc :=
  let targets := state.publish_targets.getD []
  let jekyll_targets := targets.filter (fun t => t.publish && t.platform == "github_pages")
  if jekyll_targets.isEmpty then ([], none)
  else
    let looped := publish_posts_loop publish_post state jekyll_targets [] ""
    match looped.2.2 with
    | some e => (looped.1, some e)
    | none =>
        if looped.1.isEmpty then (looped.1, none)
        else
          let commit_title := if looped.2.1.isEmpty then "New blog post" else looped.2.1
          match commit_and_push ("Add post: " ++ commit_title) with
          | Except.ok _ => (looped.1, none)
          | Except.error e => (looped.1, some e)

/-- The `result` dict returned by `publish_node`: `current_step` plus one
`blog_url_{lang}` entry per successful publish, in insertion order. -/
structure PublishResult where
  current_step : String
  blog_urls : List (String × String)
deriving DecidableEq, Repr

/-- Embeds `publish_node` (`src/core/graph.py` lines 103-155). The jekyll
phase runs under `except PublishError`, which catches and logs a
`PublishError` but lets any other exception propagate; afterwards
`save_posts` always runs (outside the handler, so its exceptions propagate)
and the node returns its result dict. -/
def publish_node (publish_post : PublishCall → Except PubExc String)
    (commit_and_push : String → Except PubExc Unit)
    (save_posts : PipelineState → List (String × String) → Except PubExc (List String))
    (state : PipelineState) : Except PubExc PublishResult :=
  let phase := publish_jekyll_phase publish_post commit_and_push state
  match phase.2 with
  | some (PubExc.otherExc msg) => Except.error (PubExc.otherExc msg)
  | some (PubExc.publishError _) =>
      (match save_posts state phase.1 with
       | Except.ok _ => Except.ok { current_step := "publish", blog_urls := phase.1 }
       | Except.error e => Except.error e)
  | none =>
      (match save_posts state phase.1 with
       | Except.ok _ => Except.ok { current_step := "publish", blog_urls := phase.1 }
       | Except.error e => Except.error e)

/-- The claim pair of the spec's set-difference example: previous issues with
claims {A, B}. -/
def diff_example_prev : FactCheckResult :=
  { claims_checked := 2
    issues_found :=
      [ { claim := "A", issue := "overstated", severity := Severity.HIGH },
        { claim := "B", issue := "outdated", severity := Severity.LOW } ] }

/-- Current issues with claims {B, C} for the spec's diff example. -/
def diff_example_curr : FactCheckResult :=
  { claims_checked := 2
    issues_found :=
      [ { claim := "B", issue := "still outdated", severity := Severity.MEDIUM },
        { claim := "C", issue := "new claim", severity := Severity.LOW } ] }

section RoutingLemmas

/-- The FAIL test of the router holds exactly when critic feedback is present
with a FAIL verdict. -/
lemma critic_verdict_failed_iff (s : PipelineState) :
    critic_verdict_failed s = true ↔
      ∃ f, s.critic_feedback = some f ∧ f.verdict = Verdict.FAIL := by
  cases h : s.critic_feedback with
  | none => simp [critic_verdict_failed, h]
  | some f => simp [critic_verdict_failed, h]

/-- Characterization of the "writer" branch of `route_after_critic`. -/
lemma route_after_critic_eq_writer_iff (s : PipelineState) :
    route_after_critic s = "writer" ↔
      (critic_verdict_failed s = true ∧
        s.rewrite_count.getD 0 < MAX_REWRITE_ATTEMPTS) := by
  unfold route_after_critic
  dsimp only
  split
  · rename_i hcond
    exact iff_of_true rfl hcond
  · rename_i hcond
    refine iff_of_false ?_ hcond
    split <;> decide

/-- `route_after_critic` returns either "writer" or the forward branch. -/
lemma route_after_critic_writer_or_forward (s : PipelineState) :
    route_after_critic s = "writer" ∨ route_after_critic s = forward_target s := by
  unfold route_after_critic forward_target
  dsimp only
  split
  · exact Or.inl rfl
  · exact Or.inr rfl

/-- When the FAIL test is off, `route_after_critic` is the forward branch. -/
lemma route_after_critic_of_not_failed (s : PipelineState)
    (h : critic_verdict_failed s = false) : route_after_critic s = forward_target s := by
  unfold route_after_critic forward_target
  dsimp only
  split
  · rename_i hcond
    rw [h] at hcond
    exact absurd hcond.1 (by simp)
  · rfl

/-- Routing to "writer" needs `rewrite_count` strictly below the ceiling. -/
lemma route_after_critic_writer_rc_lt (s : PipelineState)
    (h : route_after_critic s = "writer") :
    s.rewrite_count.getD 0 < MAX_REWRITE_ATTEMPTS :=
  ((route_after_critic_eq_writer_iff s).mp h).2

end RoutingLemmas

/-- Claim C2: `route_after_critic` is deterministic in the verdict and the
rewrite count: it returns "writer" exactly when critic feedback is present
with verdict FAIL and `rewrite_count` is strictly below
`MAX_REWRITE_ATTEMPTS`; in every other case (PASS, force-pass at or above
the ceiling, missing feedback) it takes the forward branch; concretely,
with the default configuration, PASS at rewrite_count 1 routes to
"translator", FAIL at 1 to "writer", and FAIL at the ceiling 3 to
"translator". -/
theorem claim_C2_route_after_critic_determinism :
    (∀ s : PipelineState,
        route_after_critic s = "writer" ↔
          ((∃ f, s.critic_feedback = some f ∧ f.verdict = Verdict.FAIL) ∧
            s.rewrite_count.getD 0 < MAX_REWRITE_ATTEMPTS))
  ∧ (∀ s : PipelineState,
        route_after_critic s = "writer" ∨ route_after_critic s = forward_target s)
  ∧ route_after_critic
      { critic_feedback := some sample_critic_pass, rewrite_count := some 1 } = "translator"
  ∧ route_after_critic
      { critic_feedback := some sample_critic_fail, rewrite_count := some 1 } = "writer"
  ∧ route_after_critic
      { critic_feedback := some sample_critic_fail, rewrite_count := some 3 } = "translator" := by
  refine ⟨fun s => ?_, route_after_critic_writer_or_forward, by decide, by decide, by decide⟩
  rw [route_after_critic_eq_writer_iff, critic_verdict_failed_iff]

/-- Claim C3: whenever `route_after_critic` does not loop to "writer", the
forward branch returns "editor" exactly under `output_language = "ko-only"`
and "translator" for every other configuration, including an absent
`blog_config` (which falls back to the default `BlogConfig()`, whose
`output_language` is "both"). -/
theorem claim_C3_language_skip (s : PipelineState)
    (h : route_after_critic s ≠ "writer") :
    ((s.blog_config.getD {}).output_language = "ko-only" →
        route_after_critic s = "editor")
  ∧ ((s.blog_config.getD {}).output_language ≠ "ko-only" →
        route_after_critic s = "translator")
  ∧ (s.blog_config = none → route_after_critic s = "translator") := by
  have hfwd : route_after_critic s = forward_target s :=
    (route_after_critic_writer_or_forward s).resolve_left h
  refine ⟨fun hko => ?_, fun hko => ?_, fun hnone => ?_⟩
  · rw [hfwd]; unfold forward_target; rw [if_pos hko]
  · rw [hfwd]; unfold forward_target; rw [if_neg hko]
  · rw [hfwd]; unfold forward_target; rw [hnone]; decide

/-- Witness for claim C3 at a concrete ko-only state. -/
theorem claim_C3_witness :
    route_after_critic { blog_config := some { output_language := "ko-only" } } = "editor" :=
  (claim_C3_language_skip { blog_config := some { output_language := "ko-only" } }
    (by decide)).1 (by decide)

/-- Claim C4: with `critic_feedback` absent, `route_after_critic` is total
(the embedding mirrors python's short-circuit `feedback and
feedback.verdict`, so no attribute of a missing feedback is ever read), never
returns "writer", takes the forward branch, and agrees with the route the
same state would take under any PASS verdict. -/
theorem claim_C4_missing_feedback (s : PipelineState)
    (h : s.critic_feedback = none) :
    route_after_critic s ≠ "writer"
  ∧ route_after_critic s = forward_target s
  ∧ ∀ fb : CriticFeedback, fb.verdict = Verdict.PASS →
      route_after_critic { s with critic_feedback := some fb } = route_after_critic s := by
  have hfail : critic_verdict_failed s = false := by
    unfold critic_verdict_failed
    rw [h]
  have hfwd : route_after_critic s = forward_target s :=
    route_after_critic_of_not_failed s hfail
  refine ⟨?_, hfwd, fun fb hfb => ?_⟩
  · intro hw
    have := ((route_after_critic_eq_writer_iff s).mp hw).1
    rw [hfail] at this
    exact absurd this (by simp)
  · have hfail' : critic_verdict_failed { s with critic_feedback := some fb } = false := by
      unfold critic_verdict_failed
      simp [hfb]
    rw [route_after_critic_of_not_failed _ hfail', hfwd]
    rfl

/-- Witness for claim C4 at the empty state. -/
theorem claim_C4_witness :
    route_after_critic {} ≠ "writer" ∧ route_after_critic {} = forward_target {} :=
  ⟨(claim_C4_missing_feedback {} rfl).1, (claim_C4_missing_feedback {} rfl).2.1⟩

/-- Claim C5: the HITL gates are deterministic in the human decision: REJECT
at the outline gate routes to the LangGraph terminal END, APPROVE or EDIT to
"writer"; APPROVE at the publish gate routes to "publish", REJECT to END (so
a rejected run reaches the terminal and no further pipeline node runs). -/
theorem claim_C5_hitl_gate_determinism :
    (∀ s : PipelineState, s.outline_decision = some HumanDecision.REJECT →
        route_after_outline_review s = END)
  ∧ (∀ s : PipelineState,
        (s.outline_decision = some HumanDecision.APPROVE ∨
         s.outline_decision = some HumanDecision.EDIT) →
        route_after_outline_review s = "writer")
  ∧ (∀ s : PipelineState, s.publish_decision = some HumanDecision.APPROVE →
        route_after_publish_review s = "publish")
  ∧ (∀ s : PipelineState, s.publish_decision = some HumanDecision.REJECT →
        route_after_publish_review s = END) := by
  refine ⟨fun s h => ?_, fun s h => ?_, fun s h => ?_, fun s h => ?_⟩
  · unfold route_after_outline_review
    rw [h]
    rfl
  · unfold route_after_outline_review
    rcases h with h | h <;> rw [h] <;> rfl
  · unfold route_after_publish_review
    rw [h]
    rfl
  · unfold route_after_publish_review
    rw [h]
    rfl

/-- Witness for claim C5 at concrete decisions. -/
theorem claim_C5_witness :
    route_after_outline_review { outline_decision := some HumanDecision.REJECT } = END
  ∧ route_after_outline_review { outline_decision := some HumanDecision.EDIT } = "writer"
  ∧ route_after_publish_review { publish_decision := some HumanDecision.APPROVE } = "publish"
  ∧ route_after_publish_review { publish_decision := some HumanDecision.REJECT } = END :=
  ⟨claim_C5_hitl_gate_determinism.1 _ rfl,
   claim_C5_hitl_gate_determinism.2.1 _ (Or.inr rfl),
   claim_C5_hitl_gate_determinism.2.2.1 _ rfl,
   claim_C5_hitl_gate_determinism.2.2.2 _ rfl⟩

/-- Claim C10: with no decision injected, both HITL routers default to
APPROVE (`state.get(..., HumanDecision.APPROVE)`): a missing
`outline_decision` routes to "writer" and a missing `publish_decision`
routes straight to "publish". -/
theorem claim_C10_missing_decision_defaults_approve :
    (∀ s : PipelineState, s.outline_decision = none →
        route_after_outline_review s = "writer")
  ∧ (∀ s : PipelineState, s.publish_decision = none →
        route_after_publish_review s = "publish") := by
  constructor
  · intro s h
    unfold route_after_outline_review
    rw [h]
    rfl
  · intro s h
    unfold route_after_publish_review
    rw [h]
    rfl

/-- Witness for claim C10 at the empty state. -/
theorem claim_C10_witness :
    route_after_outline_review {} = "writer" ∧ route_after_publish_review {} = "publish" :=
  ⟨claim_C10_missing_decision_defaults_approve.1 {} rfl,
   claim_C10_missing_decision_defaults_approve.2 {} rfl⟩

section LoopLemmas

/-- The fact checker's update touches neither the critic feedback nor the
rewrite count. -/
lemma fact_checker_run_update_preserves (f : FactCheckResult) (s : PipelineState) :
    (fact_checker_run_update f s).critic_feedback = s.critic_feedback ∧
    (fact_checker_run_update f s).rewrite_count = s.rewrite_count := by
  unfold fact_checker_run_update
  cases h : s.fact_check <;> simp

/-- The state reaching `route_after_critic` in one loop pass: feedback is the
critic's output of the pass and the rewrite count is the writer's update. -/
lemma pass_state_fields (round : CriticRound) (s : PipelineState) :
    (critic_run_update round.feedback
        (fact_checker_run_update round.fact (writer_run_update round.draft s))).critic_feedback
      = some round.feedback ∧
    (critic_run_update round.feedback
        (fact_checker_run_update round.fact (writer_run_update round.draft s))).rewrite_count
      = some (if s.critic_feedback.isSome then s.rewrite_count.getD 0 + 1 else 0) := by
  refine ⟨rfl, ?_⟩
  have h := (fact_checker_run_update_preserves round.fact (writer_run_update round.draft s)).2
  show (fact_checker_run_update round.fact (writer_run_update round.draft s)).rewrite_count = _
  rw [h]
  rfl

/-- Bound on the loop entered with critic feedback already present (every
further writer invocation is a rewrite, incrementing the count): the number
of writer invocations is at most the remaining budget below the ceiling. -/
lemma rewrite_loop_count_le (rounds : List CriticRound) :
    ∀ s : PipelineState, s.critic_feedback.isSome →
      s.rewrite_count.getD 0 < MAX_REWRITE_ATTEMPTS →
      (rewrite_loop rounds s).2 ≤ MAX_REWRITE_ATTEMPTS - s.rewrite_count.getD 0 := by
  induction rounds with
  | nil =>
      intro s _ hrc
      simp [rewrite_loop]
  | cons round rest ih =>
      intro s hfb hrc
      have hfields := pass_state_fields round s
      rw [if_pos hfb] at hfields
      unfold rewrite_loop
      dsimp only
      split
      · rename_i hroute
        have hlt := route_after_critic_writer_rc_lt _ hroute
        rw [hfields.2] at hlt
        simp only [Option.getD_some] at hlt
        have hrec := ih _ (by rw [hfields.1]; rfl) (by rw [hfields.2]; exact hlt)
        rw [hfields.2] at hrec
        simp only [Option.getD_some] at hrec
        omega
      · simp only
        omega

end LoopLemmas

/-- Claim C1: the writer is invoked at most `MAX_REWRITE_ATTEMPTS + 1` times
per run for every trace of critic outputs; the writer update sets
`rewrite_count` to 0 on the initial write (no critic feedback yet) and to
its previous value plus one on a rewrite; looping to "writer" needs
`rewrite_count` strictly below the ceiling; and under a critic that always
FAILs, the run performs exactly the ceiling-plus-one writer invocations,
`rewrite_count` reaches exactly 3, and the run then routes forward to
"translator" rather than looping a fourth time. -/
theorem claim_C1_bounded_rewrite_loop :
    (∀ (rounds : List CriticRound) (s : PipelineState), s.critic_feedback = none →
        (rewrite_loop rounds s).2 ≤ MAX_REWRITE_ATTEMPTS + 1)
  ∧ (∀ (d : String) (s : PipelineState), s.critic_feedback = none →
        (writer_run_update d s).rewrite_count = some 0)
  ∧ (∀ (d : String) (s : PipelineState) (f : CriticFeedback),
        s.critic_feedback = some f →
        (writer_run_update d s).rewrite_count = some (s.rewrite_count.getD 0 + 1))
  ∧ (∀ s : PipelineState, route_after_critic s = "writer" →
        s.rewrite_count.getD 0 < MAX_REWRITE_ATTEMPTS)
  ∧ (rewrite_loop (List.replicate 4 failing_round) after_outline_state).2
      = MAX_REWRITE_ATTEMPTS + 1
  ∧ (rewrite_loop (List.replicate 4 failing_round) after_outline_state).1.rewrite_count
      = some MAX_REWRITE_ATTEMPTS
  ∧ route_after_critic (rewrite_loop (List.replicate 4 failing_round) after_outline_state).1
      = "translator" := by
  refine ⟨?_, ?_, ?_, route_after_critic_writer_rc_lt, by decide, by decide, by decide⟩
  · intro rounds s hnone
    cases rounds with
    | nil => simp [rewrite_loop]
    | cons round rest =>
        have hfields := pass_state_fields round s
        rw [hnone] at hfields
        simp only [Option.isSome_none, Bool.false_eq_true, if_false] at hfields
        unfold rewrite_loop
        dsimp only
        split
        · rename_i hroute
          have hlt := route_after_critic_writer_rc_lt _ hroute
          have hrec := rewrite_loop_count_le rest _ (by rw [hfields.1]; rfl) hlt
          rw [hfields.2] at hrec
          simp only [Option.getD_some] at hrec
          omega
        · simp only
          omega
  · intro d s hnone
    unfold writer_run_update
    rw [hnone]
    rfl
  · intro d s f hsome
    unfold writer_run_update
    rw [hsome]
    rfl

/-- Witness for claim C1 at a concrete empty trace. -/
theorem claim_C1_witness :
    (rewrite_loop [] ({} : PipelineState)).2 ≤ MAX_REWRITE_ATTEMPTS + 1 :=
  claim_C1_bounded_rewrite_loop.1 [] {} rfl

/-- Claim C6: `get_status` classifies a pause exclusively: `is_interrupted`
holds exactly when the next pending node is one of the two HITL nodes,
`is_stuck` exactly when some node is pending and the next one is not a HITL
node; the two are never both true, and both are false for a terminal run
with nothing pending. -/
theorem claim_C6_status_classification (store : CheckpointStore) (tid : String) :
    ((PipelineRunner.get_status store tid).is_interrupted = true ↔
      ((graph_get_state store tid).next.head? = some "outline_review" ∨
       (graph_get_state store tid).next.head? = some "publish_review"))
  ∧ ((PipelineRunner.get_status store tid).is_stuck = true ↔
      ((graph_get_state store tid).next ≠ [] ∧
       ¬((graph_get_state store tid).next.head? = some "outline_review" ∨
         (graph_get_state store tid).next.head? = some "publish_review")))
  ∧ ¬((PipelineRunner.get_status store tid).is_interrupted = true ∧
      (PipelineRunner.get_status store tid).is_stuck = true)
  ∧ ((graph_get_state store tid).next = [] →
      (PipelineRunner.get_status store tid).is_interrupted = false ∧
      (PipelineRunner.get_status store tid).is_stuck = false) := by
  rcases hs : graph_get_state store tid with ⟨vals, next⟩
  simp only [PipelineRunner.get_status, hs]
  cases next with
  | nil => simp
  | cons node rest =>
      by_cases h1 : node = "outline_review" <;>
        by_cases h2 : node = "publish_review" <;>
          simp [HITL_NODES, h1, h2]

/-- Witness for claim C6 on a store with no checkpoint for the run. -/
theorem claim_C6_witness :
    (PipelineRunner.get_status [] "t0").is_interrupted = false ∧
    (PipelineRunner.get_status [] "t0").is_stuck = false :=
  (claim_C6_status_classification [] "t0").2.2.2 rfl

/-- A concrete checkpoint store holding one run ("abc123"), paused at the
outline review gate. -/
def known_run_store : CheckpointStore :=
  [("abc123",
    { values := { rewrite_count := some 0, current_step := some "research_planner" }
      next := ["outline_review"] })]

/-- Claim C7 fails on the code: no runner operation checks that the run id
exists. LangGraph's `get_state` returns an empty snapshot for an unknown
thread, and `get_status`/`get_state` build their answers from it
unconditionally, so a never-started id ("deadbeef", absent from the store)
yields a normal-looking default status (current_step "unknown", neither
interrupted nor stuck) and an empty state instead of a "not found" failure. -/
theorem claim_C7_unknown_run_id_defaults :
    PipelineRunner.get_status known_run_store "deadbeef" =
      { thread_id := "deadbeef", current_step := "unknown", is_interrupted := false,
        is_stuck := false, next_node := none, rewrite_count := 0, has_outline := false,
        has_draft_ko := false, has_draft_en := false, has_final_ko := false,
        has_final_en := false, critic_score := none }
  ∧ PipelineRunner.get_state known_run_store "deadbeef" = {} := by
  constructor <;> decide

/-- Claim C8 as stated is false on the code: `publish_node` wraps the Jekyll
publishing step in `except PublishError`, so a `PublishError` raised by
`publisher.publish_post` does not propagate — at this concrete state (one
ko github_pages target with a final post) and an always-failing publisher,
the node returns its normal result dict instead of an error. -/
theorem claim_C8_counterexample :
    publish_node (fun _ => Except.error (PubExc.publishError "git push failed"))
      (fun _ => Except.ok ()) (fun _ _ => Except.ok [])
      { final_post_ko := some "# body"
        publish_targets := some
          [{ language := "ko", platform := "github_pages", publish := true }] }
      = Except.ok { current_step := "publish", blog_urls := [] } := rfl

/-- Claim C8, amended: every agent node is the bare agent call (the run's
outcome, success or exception, is exactly the agent's — nothing is caught,
swallowed or retried by the core), and `publish_node` propagates every
exception except a `PublishError` from the Jekyll publishing phase, which it
catches and logs before saving local posts and returning normally. -/
theorem claim_C8_node_failure_propagation :
    (∀ (ε α : Type) (agent_run : PipelineState → Except ε α) (s : PipelineState),
        research_planner_node agent_run s = agent_run s
      ∧ writer_node agent_run s = agent_run s
      ∧ fact_checker_node agent_run s = agent_run s
      ∧ critic_node agent_run s = agent_run s
      ∧ translator_node agent_run s = agent_run s
      ∧ editor_node agent_run s = agent_run s
      ∧ seo_optimizer_node agent_run s = agent_run s)
  ∧ (∀ pp cp sp s msg,
        (publish_jekyll_phase pp cp s).2 = some (PubExc.otherExc msg) →
        publish_node pp cp sp s = Except.error (PubExc.otherExc msg))
  ∧ (∀ pp cp sp s e,
        (publish_jekyll_phase pp cp s).2 = none →
        sp s (publish_jekyll_phase pp cp s).1 = Except.error e →
        publish_node pp cp sp s = Except.error e)
  ∧ (∀ pp cp sp s msg r,
        (publish_jekyll_phase pp cp s).2 = some (PubExc.publishError msg) →
        sp s (publish_jekyll_phase pp cp s).1 = Except.ok r →
        publish_node pp cp sp s =
          Except.ok { current_step := "publish",
                      blog_urls := (publish_jekyll_phase pp cp s).1 }) := by
  refine ⟨fun ε α agent_run s => ⟨rfl, rfl, rfl, rfl, rfl, rfl, rfl⟩, ?_, ?_, ?_⟩
  · intro pp cp sp s msg hphase
    unfold publish_node
    dsimp only
    rw [hphase]
  · intro pp cp sp s e hphase hsave
    unfold publish_node
    dsimp only
    rw [hphase, hsave]
  · intro pp cp sp s msg r hphase hsave
    unfold publish_node
    dsimp only
    rw [hphase, hsave]

/-- Witness for the amended claim C8: a non-PublishError exception from the
publishing step propagates out of `publish_node`. -/
theorem claim_C8_witness :
    publish_node (fun _ => Except.error (PubExc.otherExc "disk full"))
      (fun _ => Except.ok ()) (fun _ _ => Except.ok [])
      { final_post_ko := some "# body"
        publish_targets := some
          [{ language := "ko", platform := "github_pages", publish := true }] }
      = Except.error (PubExc.otherExc "disk full") :=
  claim_C8_node_failure_propagation.2.1
    (fun _ => Except.error (PubExc.otherExc "disk full"))
    (fun _ => Except.ok ()) (fun _ _ => Except.ok [])
    { final_post_ko := some "# body"
      publish_targets := some
        [{ language := "ko", platform := "github_pages", publish := true }] }
    "disk full" rfl

/-- Claim C9: the fact-check diff is exactly set difference and intersection
on claim text — membership in `resolved`, `new` and `remaining` is
characterized by presence in the previous and current issue claim sets, each
list is sorted, and the spec's concrete example {A, B} versus {B, C} yields
resolved=[A], new=[C], remaining=[B]. -/
theorem claim_C9_fact_check_diff :
    (∀ (previous current : FactCheckResult) (c : String),
        (c ∈ (compute_diff previous current).resolved ↔
          (c ∈ previous.issues_found.map FactCheckIssue.claim ∧
           c ∉ current.issues_found.map FactCheckIssue.claim))
      ∧ (c ∈ (compute_diff previous current).new ↔
          (c ∈ current.issues_found.map FactCheckIssue.claim ∧
           c ∉ previous.issues_found.map FactCheckIssue.claim))
      ∧ (c ∈ (compute_diff previous current).remaining ↔
          (c ∈ previous.issues_found.map FactCheckIssue.claim ∧
           c ∈ current.issues_found.map FactCheckIssue.claim)))
  ∧ (∀ previous current : FactCheckResult,
        List.Sorted (· ≤ ·) (compute_diff previous current).resolved
      ∧ List.Sorted (· ≤ ·) (compute_diff previous current).new
      ∧ List.Sorted (· ≤ ·) (compute_diff previous current).remaining)
  ∧ compute_diff diff_example_prev diff_example_curr =
      { resolved := ["A"], new := ["C"], remaining := ["B"] } := by
  refine ⟨?_, ?_, ?_⟩
  · intro previous current c
    refine ⟨?_, ?_, ?_⟩ <;>
      simp [compute_diff, Finset.mem_sort, Finset.mem_sdiff, Finset.mem_inter,
        List.mem_toFinset]
  · intro previous current
    unfold compute_diff
    dsimp only
    exact ⟨Finset.sort_sorted _ _, Finset.sort_sorted _ _, Finset.sort_sorted _ _⟩
  · have hres : ((diff_example_prev.issues_found.map (fun i => i.claim)).toFinset \
        (diff_example_curr.issues_found.map (fun i => i.claim)).toFinset) = {"A"} := by
      decide
    have hnew : ((diff_example_curr.issues_found.map (fun i => i.claim)).toFinset \
        (diff_example_prev.issues_found.map (fun i => i.claim)).toFinset) = {"C"} := by
      decide
    have hrem : ((diff_example_prev.issues_found.map (fun i => i.claim)).toFinset ∩
        (diff_example_curr.issues_found.map (fun i => i.claim)).toFinset) = {"B"} := by
      decide
    simp [compute_diff, hres, hnew, hrem, Finset.sort_singleton]

end BloggingAgent
